import Mathlib

/-!
Verification of the spatial k-d tree library core against its specification.

The definitions below are shallow embeddings of the C++ sources:
  * `src/bits/spatial_equal.hpp` — the equal-iterator traversal predicates;
  * `src/bits/spatial_kdtree_base.hpp` — `Kdtree_base::swap`, `empty`,
    `create_node` with its `safe_allocator`;
  * `src/pointmap.hpp` and `src/frozen_pointset.hpp` — the facade
    constructors and their forwarding of collaborators.

Keys are an abstract type `K`; a per-axis comparator is a function
`Nat → K → K → Bool` (the C++ `less(axis, a, b)` predicate). Pointer
structure is modelled as a flat memory `Nat → NodeF` indexed by address.
-/

namespace Spatial

/-! ## Equal iterator predicates (spatial_equal.hpp) -/

/-- The invariant category of a tree mode: `relaxed_invariant_tag` or
`strict_invariant_tag` in the C++ sources. -/
inductive InvariantTag where
  | relaxed : InvariantTag
  | strict : InvariantTag
deriving DecidableEq

/-- The `equal_key` query object of `spatial_equal.hpp`: the container's
per-axis comparator together with the model key being searched. -/
structure EqualKey (K : Type) where
  comp : Nat → K → K → Bool
  model : K

/-- `right_traversal` (spatial_equal.hpp, lines 45-53):
`!equal.comp()(dim, equal.model, const_key(node))`.
The rank argument is unused in the source and kept for fidelity. -/
def right_traversal {K : Type} (nodeKey : K) (dim : Nat) (_rank : Nat)
    (equal : EqualKey K) : Bool :=
  !(equal.comp dim equal.model nodeKey)

/-- `left_traversal` (spatial_equal.hpp, lines 85-103): dispatched on the
invariant category. For `relaxed_invariant_tag` it returns
`!equal.comp()(dim, const_key(node), equal.model)`; for
`strict_invariant_tag` it returns `equal.comp()(dim, equal.model,
const_key(node))`. -/
def left_traversal {K : Type} (nodeKey : K) (dim : Nat) (equal : EqualKey K) :
    InvariantTag → Bool
  | InvariantTag.relaxed => !(equal.comp dim nodeKey equal.model)
  | InvariantTag.strict => equal.comp dim equal.model nodeKey

/-- The scanning loop of `stop_traversal` (spatial_equal.hpp, lines 76-82):
starting from `i`, advance while `i < rank` and the node key and the model
are incomparable (equivalent) on axis `i`; return the first index where the
scan stops. -/
def stopLoop {K : Type} (nodeKey : K) (equal : EqualKey K) (rank : Nat)
    (i : Nat) : Nat :=
  if h : i < rank ∧ equal.comp i nodeKey equal.model = false
      ∧ equal.comp i equal.model nodeKey = false then
    stopLoop nodeKey equal rank (i + 1)
  else
    i
termination_by rank - i
decreasing_by exact Nat.sub_succ_lt_self rank i h.1

/-- `stop_traversal` (spatial_equal.hpp, lines 71-83): the loop runs from
axis 0 and the node matches when the loop index reached `rank`. -/
def stop_traversal {K : Type} (nodeKey : K) (rank : Nat)
    (equal : EqualKey K) : Bool :=
  stopLoop nodeKey equal rank 0 == rank

/-- The integer comparator used for concrete instantiations:
`less(axis, a, b) = a < b`, ignoring the axis. -/
def intLess : Nat → Int → Int → Bool := fun _ a b => decide (a < b)

/-- Characterisation of the scan loop: started at `i ≤ rank`, it returns
`rank` exactly when on every remaining axis the node key and the model are
mutually incomparable. -/
theorem stopLoop_eq_rank_iff {K : Type} (nodeKey : K) (equal : EqualKey K)
    (rank : Nat) :
    ∀ n i, rank - i = n → i ≤ rank →
    (stopLoop nodeKey equal rank i = rank ↔
      ∀ a, i ≤ a → a < rank →
        equal.comp a nodeKey equal.model = false
          ∧ equal.comp a equal.model nodeKey = false) := by
  intro n
  induction n with
  | zero =>
    intro i hn hle
    have hir : i = rank := Nat.le_antisymm hle (Nat.le_of_sub_eq_zero hn)
    subst hir
    rw [stopLoop, dif_neg (by simp)]
    constructor
    · intro _ a ha1 ha2
      exact absurd (Nat.lt_of_le_of_lt ha1 ha2) (Nat.lt_irrefl i)
    · intro _
      rfl
  | succ n ih =>
    intro i hn hle
    have hlt : i < rank := by omega
    rw [stopLoop]
    by_cases hc : equal.comp i nodeKey equal.model = false
        ∧ equal.comp i equal.model nodeKey = false
    · rw [dif_pos ⟨hlt, hc⟩, ih (i + 1) (by omega) (by omega)]
      constructor
      · intro hall a hia halt
        rcases Nat.eq_or_lt_of_le hia with h' | h'
        · exact h' ▸ hc
        · exact hall a h' halt
      · intro hall a hia halt
        exact hall a (Nat.le_of_succ_le hia) halt
    · rw [dif_neg (fun hcon => hc hcon.2)]
      constructor
      · intro h
        exact absurd (h ▸ hlt) (Nat.lt_irrefl rank)
      · intro hall
        exact absurd (hall i (Nat.le_refl i) hlt) hc

/-- C1 (counterexample): the claim as stated — in the strict-invariant
variant left descent is permitted iff the node's key is not strictly less
than the model — is false at node key `0`, model `0`, axis `0` with the
integer comparator: the node's key is not strictly less than the model,
yet `left_traversal` under `strict_invariant_tag` forbids the descent. -/
theorem left_traversal_strict_claim_false :
    ¬ (left_traversal (0 : Int) 0 (EqualKey.mk intLess 0) InvariantTag.strict
        = true
      ↔ intLess 0 (0 : Int) 0 = false) := by
  decide

/-- C1 (amended): left descent at a node split on axis `dim` is permitted
iff, in the RELAXED-invariant variant, the node's key on that axis is not
strictly less than the model, and, in the STRICT-invariant variant, the
model is strictly less than the node's key (the two variants are the
reverse of what the claim states). -/
theorem left_traversal_characterisation {K : Type} (nodeKey : K) (dim : Nat)
    (equal : EqualKey K) :
    (left_traversal nodeKey dim equal InvariantTag.relaxed = true
      ↔ equal.comp dim nodeKey equal.model = false)
  ∧ (left_traversal nodeKey dim equal InvariantTag.strict = true
      ↔ equal.comp dim equal.model nodeKey = true) := by
  constructor
  · simp [left_traversal]
  · simp [left_traversal]

/-- C5: right descent at a node split on axis `dim` is permitted iff the
model is not strictly less than the node's key on that axis, and this does
not depend on the invariant variant (the same `right_traversal` serves
both). -/
theorem right_traversal_characterisation {K : Type} (nodeKey : K)
    (dim rank : Nat) (equal : EqualKey K) :
    right_traversal nodeKey dim rank equal = true
      ↔ equal.comp dim equal.model nodeKey = false := by
  simp [right_traversal]

/-- C6: the equal iterator's match test `stop_traversal` accepts a node iff
the node's key is coordinate-equivalent to the model: on every axis
`a < rank`, neither `less(a, nodeKey, model)` nor `less(a, model, nodeKey)`
holds. -/
theorem stop_traversal_characterisation {K : Type} (nodeKey : K)
    (rank : Nat) (equal : EqualKey K) :
    stop_traversal nodeKey rank equal = true
      ↔ ∀ a, a < rank →
          equal.comp a nodeKey equal.model = false
            ∧ equal.comp a equal.model nodeKey = false := by
  unfold stop_traversal
  rw [beq_iff_eq,
      stopLoop_eq_rank_iff nodeKey equal rank (rank - 0) 0 rfl (Nat.zero_le _)]
  constructor
  · intro h a ha
    exact h a (Nat.zero_le a) ha
  · intro h a _ ha
    exact h a ha

/-! ## Tree base: swap, empty (spatial_kdtree_base.hpp) -/

/-- The node fields touched by `Kdtree_base::swap`: the `parent`, `right`
and `leftmost` links of the `Header_node` (for element nodes only `parent`
is ever accessed by `swap`; the `left` end-marker link is never touched). -/
structure NodeF where
  parent : Nat
  right : Nat
  leftmost : Nat
deriving DecidableEq

/-- A flat memory of node fields, indexed by node address. -/
def Mem : Type := Nat → NodeF

/-- Overwrite all fields of the node at address `a`. -/
def setNode (m : Mem) (a : Nat) (f : NodeF) : Mem :=
  fun x => if x = a then f else m x

/-- Overwrite the `parent` field of the node at address `a`
(the C++ statement `x->parent = h`). -/
def setParent (m : Mem) (a p : Nat) : Mem :=
  setNode m a { m a with parent := p }

theorem setNode_same (m : Mem) (a : Nat) (f : NodeF) : setNode m a f a = f :=
  if_pos rfl

theorem setNode_other (m : Mem) (a : Nat) (f : NodeF) (x : Nat)
    (h : x ≠ a) : setNode m a f x = m x :=
  if_neg h

/-- The state of one `Kdtree_base` object: its rank, comparator and
allocator members and the address of its header node (whose link fields
live in the shared memory). -/
structure KdtreeBase (R C L : Type) where
  rank : R
  compare : C
  alloc : L
  header : Nat

/-- `Kdtree_base::empty` (spatial_kdtree_base.hpp, lines 514-516):
`get_root() == get_header()`, i.e. the header's parent points back to the
header itself. -/
def kdtEmpty {R C L : Type} (m : Mem) (t : KdtreeBase R C L) : Bool :=
  (m t.header).parent == t.header

/-- `Kdtree_base::swap` (spatial_kdtree_base.hpp, lines 470-499), acting on
a shared memory and the two tree objects; returns the updated memory and
the two updated objects. Steps, in source order: early return when both
trees are empty; member-swap of rank, comparator and allocator; stitching
of the empty side's header (if any) to the other side's header; `std::swap`
of the `parent`, `right` and `leftmost` header fields; relinking of each
non-empty side's root parent to the owning header. -/
def swapKd {R C L : Type} (m : Mem) (ta tb : KdtreeBase R C L) :
    Mem × KdtreeBase R C L × KdtreeBase R C L :=
  if kdtEmpty m ta && kdtEmpty m tb then (m, ta, tb) else
  let ta' : KdtreeBase R C L :=
    { ta with rank := tb.rank, compare := tb.compare, alloc := tb.alloc }
  let tb' : KdtreeBase R C L :=
    { tb with rank := ta.rank, compare := ta.compare, alloc := ta.alloc }
  let m1 : Mem :=
    if (m ta.header).parent == ta.header then
      setNode m ta.header ⟨tb.header, tb.header, tb.header⟩
    else if (m tb.header).parent == tb.header then
      setNode m tb.header ⟨ta.header, ta.header, ta.header⟩
    else m
  let ha : NodeF := m1 ta.header
  let hb : NodeF := m1 tb.header
  let m2 : Mem := setNode (setNode m1 ta.header hb) tb.header ha
  let m3 : Mem :=
    if (m2 ta.header).parent == ta.header then m2
    else setParent m2 ((m2 ta.header).parent) ta.header
  let m4 : Mem :=
    if (m3 tb.header).parent == tb.header then m3
    else setParent m3 ((m3 tb.header).parent) tb.header
  (m4, ta', tb')

/-- A memory where every node is self-parented: any tree whose header lives
in this memory is empty. -/
def memBothEmpty : Mem := fun a => ⟨a, a, a⟩

/-- An empty tree with header at address 0, comparator `true`. -/
def treeA0 : KdtreeBase Unit Bool Unit := ⟨(), true, (), 0⟩

/-- A tree with header at address 1, comparator `false`. -/
def treeB1 : KdtreeBase Unit Bool Unit := ⟨(), false, (), 1⟩

/-- A memory where the tree with header 0 is empty and the tree with header
1 holds a single element node at address 2 (root, rightmost and leftmost). -/
def memOneEmpty : Mem := fun a =>
  if a = 1 then ⟨2, 2, 2⟩ else if a = 2 then ⟨1, 1, 1⟩ else ⟨a, a, a⟩

/-- C2 (counterexample): on two empty trees with different comparators,
`swap` returns early and the first tree keeps its own comparator instead of
receiving the other's, refuting the claim for the both-empty case. -/
theorem swap_both_empty_keeps_compare :
    ¬ ((swapKd memBothEmpty treeA0 treeB1).2.1.compare = treeB1.compare) := by
  decide

/-- Memory layout produced by `swap` when both trees are non-empty (with
the headers and the two roots four distinct addresses, as object identity
guarantees in C++): the two headers' contents are exchanged wholesale, and
each old root's parent is relinked to its new owning header. -/
theorem swapKd_both_nonempty {R C L : Type} (m : Mem)
    (ta tb : KdtreeBase R C L)
    (hh : ta.header ≠ tb.header)
    (hA : (m ta.header).parent ≠ ta.header)
    (hB : (m tb.header).parent ≠ tb.header)
    (hAB : (m ta.header).parent ≠ tb.header)
    (hBA : (m tb.header).parent ≠ ta.header)
    (hRR : (m ta.header).parent ≠ (m tb.header).parent) :
    (swapKd m ta tb).1 ta.header = m tb.header
  ∧ (swapKd m ta tb).1 tb.header = m ta.header
  ∧ ((swapKd m ta tb).1 ((m tb.header).parent)).parent = ta.header
  ∧ ((swapKd m ta tb).1 ((m ta.header).parent)).parent = tb.header := by
  have hab : tb.header ≠ ta.header := Ne.symm hh
  have hAs : ta.header ≠ (m ta.header).parent := Ne.symm hA
  have hBs : tb.header ≠ (m tb.header).parent := Ne.symm hB
  have hABs : tb.header ≠ (m ta.header).parent := Ne.symm hAB
  have hBAs : ta.header ≠ (m tb.header).parent := Ne.symm hBA
  have hRRs : (m tb.header).parent ≠ (m ta.header).parent := Ne.symm hRR
  have e1 : ((m ta.header).parent == ta.header) = false :=
    beq_eq_false_iff_ne.mpr hA
  have e2 : ((m tb.header).parent == tb.header) = false :=
    beq_eq_false_iff_ne.mpr hB
  have e3 : ((m tb.header).parent == ta.header) = false :=
    beq_eq_false_iff_ne.mpr hBA
  have e4 : ((m ta.header).parent == tb.header) = false :=
    beq_eq_false_iff_ne.mpr hAB
  have hc1 : (kdtEmpty m ta && kdtEmpty m tb) = false := by
    simp [kdtEmpty, e1]
  simp only [swapKd, hc1, e1, e2, Bool.false_eq_true, if_false, setParent]
  simp only [setNode_same, setNode_other _ _ _ _ hab, setNode_other _ _ _ _ hh,
    setNode_other _ _ _ _ hAs, setNode_other _ _ _ _ hBs,
    setNode_other _ _ _ _ hABs, setNode_other _ _ _ _ hBAs,
    setNode_other _ _ _ _ hAB, setNode_other _ _ _ _ hBA,
    setNode_other _ _ _ _ hRR, setNode_other _ _ _ _ hRRs,
    e1, e2, e3, e4, Bool.false_eq_true, if_false, beq_self_eq_true, if_true]
  exact ⟨trivial, trivial, trivial, trivial⟩

/-- C2 (amended): whenever at least one of the two trees is non-empty,
`swap` exchanges the two trees' rank, comparator and allocator (each tree
keeping its own header object), and when both trees are non-empty it
moreover exchanges the two headers' link contents wholesale; when both
trees are empty it returns early and leaves both trees unchanged. -/
theorem swap_exchanges_collaborators {R C L : Type} (m : Mem)
    (ta tb : KdtreeBase R C L)
    (h : (kdtEmpty m ta && kdtEmpty m tb) = false) :
    (((swapKd m ta tb).2.1.rank = tb.rank
      ∧ (swapKd m ta tb).2.1.compare = tb.compare
      ∧ (swapKd m ta tb).2.1.alloc = tb.alloc
      ∧ (swapKd m ta tb).2.1.header = ta.header)
    ∧ ((swapKd m ta tb).2.2.rank = ta.rank
      ∧ (swapKd m ta tb).2.2.compare = ta.compare
      ∧ (swapKd m ta tb).2.2.alloc = ta.alloc
      ∧ (swapKd m ta tb).2.2.header = tb.header))
  ∧ (ta.header ≠ tb.header →
      (m ta.header).parent ≠ ta.header →
      (m tb.header).parent ≠ tb.header →
      (m ta.header).parent ≠ tb.header →
      (m tb.header).parent ≠ ta.header →
      (m ta.header).parent ≠ (m tb.header).parent →
        ((swapKd m ta tb).1 ta.header = m tb.header
          ∧ (swapKd m ta tb).1 tb.header = m ta.header)) := by
  constructor
  · simp [swapKd, h]
  · intro hh hA hB hAB hBA hRR
    exact ⟨(swapKd_both_nonempty m ta tb hh hA hB hAB hBA hRR).1,
      (swapKd_both_nonempty m ta tb hh hA hB hAB hBA hRR).2.1⟩

/-- C2 (witness): the amended theorem applied to the concrete pair where
tree 0 is empty and tree 1 holds one node: the comparators get exchanged. -/
theorem swap_exchanges_collaborators_witness :
    (kdtEmpty memOneEmpty treeA0 && kdtEmpty memOneEmpty treeB1) = false
  ∧ (swapKd memOneEmpty treeA0 treeB1).2.1.compare = treeB1.compare :=
  ⟨by decide,
    (swap_exchanges_collaborators memOneEmpty treeA0 treeB1 (by decide)).1.1.2.1⟩

/-- `swap` never changes which header belongs to which tree object. -/
theorem swapKd_header_addresses {R C L : Type} (m : Mem)
    (ta tb : KdtreeBase R C L) :
    (swapKd m ta tb).2.1.header = ta.header
  ∧ (swapKd m ta tb).2.2.header = tb.header := by
  by_cases h : (kdtEmpty m ta && kdtEmpty m tb) = true
  · simp [swapKd, h]
  · simp [swapKd, h]

/-- Memory layout produced by `swap` when the first tree is empty and the
second is not: the second tree's header becomes fully self-pointing, the
first tree's header receives the second's old root, rightmost and leftmost,
and that root's parent is relinked to the first tree's header. -/
theorem swapKd_empty_left {R C L : Type} (m : Mem) (ta tb : KdtreeBase R C L)
    (hh : ta.header ≠ tb.header)
    (hA : (m ta.header).parent = ta.header)
    (hB : (m tb.header).parent ≠ tb.header)
    (hRA : (m tb.header).parent ≠ ta.header) :
    (swapKd m ta tb).1 tb.header = ⟨tb.header, tb.header, tb.header⟩
  ∧ (swapKd m ta tb).1 ta.header
      = ⟨(m tb.header).parent, (m tb.header).right, (m tb.header).leftmost⟩
  ∧ ((swapKd m ta tb).1 ((m tb.header).parent)).parent = ta.header := by
  have hab : tb.header ≠ ta.header := Ne.symm hh
  have hBs : tb.header ≠ (m tb.header).parent := Ne.symm hB
  have hRAs : ta.header ≠ (m tb.header).parent := Ne.symm hRA
  have e1 : ((m ta.header).parent == ta.header) = true := by
    rw [hA]; exact beq_self_eq_true ta.header
  have e2 : ((m tb.header).parent == tb.header) = false :=
    beq_eq_false_iff_ne.mpr hB
  have e3 : ((m tb.header).parent == ta.header) = false :=
    beq_eq_false_iff_ne.mpr hRA
  have hc1 : (kdtEmpty m ta && kdtEmpty m tb) = false := by
    simp [kdtEmpty, e2]
  simp only [swapKd, hc1, Bool.false_eq_true, if_false, e1, if_true, setParent]
  simp only [setNode_same, setNode_other _ _ _ _ hab, setNode_other _ _ _ _ hh,
    setNode_other _ _ _ _ hRA, setNode_other _ _ _ _ hBs,
    setNode_other _ _ _ _ hRAs, e2, e3, Bool.false_eq_true, if_false,
    beq_self_eq_true, if_true, setNode_same]
  exact ⟨trivial, trivial, trivial⟩

/-- Memory layout produced by `swap` when the second tree is empty and the
first is not: the mirror of the previous lemma. -/
theorem swapKd_empty_right {R C L : Type} (m : Mem) (ta tb : KdtreeBase R C L)
    (hh : ta.header ≠ tb.header)
    (hA : (m ta.header).parent ≠ ta.header)
    (hB : (m tb.header).parent = tb.header)
    (hRB : (m ta.header).parent ≠ tb.header) :
    (swapKd m ta tb).1 ta.header = ⟨ta.header, ta.header, ta.header⟩
  ∧ (swapKd m ta tb).1 tb.header
      = ⟨(m ta.header).parent, (m ta.header).right, (m ta.header).leftmost⟩
  ∧ ((swapKd m ta tb).1 ((m ta.header).parent)).parent = tb.header := by
  have hab : tb.header ≠ ta.header := Ne.symm hh
  have hAs : ta.header ≠ (m ta.header).parent := Ne.symm hA
  have hRBs : tb.header ≠ (m ta.header).parent := Ne.symm hRB
  have e1 : ((m ta.header).parent == ta.header) = false :=
    beq_eq_false_iff_ne.mpr hA
  have e2 : ((m tb.header).parent == tb.header) = true := by
    rw [hB]; exact beq_self_eq_true tb.header
  have e3 : ((m ta.header).parent == tb.header) = false :=
    beq_eq_false_iff_ne.mpr hRB
  have hc1 : (kdtEmpty m ta && kdtEmpty m tb) = false := by
    simp [kdtEmpty, e1]
  simp only [swapKd, hc1, Bool.false_eq_true, if_false, e1, e2, if_true,
    setParent]
  simp only [setNode_same, setNode_other _ _ _ _ hab, setNode_other _ _ _ _ hh,
    setNode_other _ _ _ _ hRB, setNode_other _ _ _ _ hAs,
    setNode_other _ _ _ _ hRBs, e1, e3, Bool.false_eq_true, if_false,
    beq_self_eq_true, if_true, setNode_same]
  exact ⟨trivial, trivial, trivial⟩

/-- C7: after `swap(a, b)` where exactly one tree is empty (and the two
headers and the non-empty root are distinct addresses, as object identity
guarantees in C++), the resulting non-empty tree's root has its parent set
to that tree's own header, and the resulting empty tree's header has its
parent, right and leftmost pointers all pointing to its own header, so
`empty()` reports true for it and false for the other. -/
theorem swap_one_empty_result {R C L : Type} (m : Mem)
    (ta tb : KdtreeBase R C L) (hh : ta.header ≠ tb.header) :
    (kdtEmpty m ta = true → kdtEmpty m tb = false →
      (m tb.header).parent ≠ ta.header →
        ((swapKd m ta tb).1 tb.header = ⟨tb.header, tb.header, tb.header⟩
          ∧ ((swapKd m ta tb).1
                (((swapKd m ta tb).1 ta.header).parent)).parent = ta.header
          ∧ kdtEmpty (swapKd m ta tb).1 (swapKd m ta tb).2.2 = true
          ∧ kdtEmpty (swapKd m ta tb).1 (swapKd m ta tb).2.1 = false))
  ∧ (kdtEmpty m ta = false → kdtEmpty m tb = true →
      (m ta.header).parent ≠ tb.header →
        ((swapKd m ta tb).1 ta.header = ⟨ta.header, ta.header, ta.header⟩
          ∧ ((swapKd m ta tb).1
                (((swapKd m ta tb).1 tb.header).parent)).parent = tb.header
          ∧ kdtEmpty (swapKd m ta tb).1 (swapKd m ta tb).2.1 = true
          ∧ kdtEmpty (swapKd m ta tb).1 (swapKd m ta tb).2.2 = false)) := by
  constructor
  · intro h1 h2 h3
    rw [kdtEmpty, beq_iff_eq] at h1
    rw [kdtEmpty, beq_eq_false_iff_ne] at h2
    obtain ⟨c1, c2, c3⟩ := swapKd_empty_left m ta tb hh h1 h2 h3
    refine ⟨c1, ?_, ?_, ?_⟩
    · rw [c2]
      exact c3
    · rw [kdtEmpty, (swapKd_header_addresses m ta tb).2, c1, beq_iff_eq]
    · rw [kdtEmpty, (swapKd_header_addresses m ta tb).1, c2,
        beq_eq_false_iff_ne]
      exact h3
  · intro h1 h2 h3
    rw [kdtEmpty, beq_eq_false_iff_ne] at h1
    rw [kdtEmpty, beq_iff_eq] at h2
    obtain ⟨c1, c2, c3⟩ := swapKd_empty_right m ta tb hh h1 h2 h3
    refine ⟨c1, ?_, ?_, ?_⟩
    · rw [c2]
      exact c3
    · rw [kdtEmpty, (swapKd_header_addresses m ta tb).1, c1, beq_iff_eq]
    · rw [kdtEmpty, (swapKd_header_addresses m ta tb).2, c2,
        beq_eq_false_iff_ne]
      exact h3

/-- C7 (witness): the stitching theorem applied to the concrete pair where
tree 0 is empty and tree 1 holds the single node 2. -/
theorem swap_one_empty_result_witness :
    treeA0.header ≠ treeB1.header
  ∧ (swapKd memOneEmpty treeA0 treeB1).1 treeB1.header
      = ⟨treeB1.header, treeB1.header, treeB1.header⟩ :=
  ⟨by decide,
    ((swap_one_empty_result memOneEmpty treeA0 treeB1 (by decide)).1
      (by decide) (by decide) (by decide)).1⟩

/-! ## Node creation (spatial_kdtree_base.hpp: safe_allocator, create_node) -/

/-- The observable state of the node allocator: the number of live
(allocated, not yet deallocated) nodes and the next fresh address. -/
structure AllocState where
  live : Nat
  nextAddr : Nat
deriving DecidableEq

/-- `alloc.allocate(1)`: reserve one node, returning its address. -/
def allocate (s : AllocState) : Nat × AllocState :=
  (s.nextAddr, ⟨s.live + 1, s.nextAddr + 1⟩)

/-- `alloc.deallocate(ptr, 1)`: release one node. -/
def deallocate (s : AllocState) : AllocState :=
  ⟨s.live - 1, s.nextAddr⟩

/-- The `safe_allocator` RAII guard (spatial_kdtree_base.hpp, lines
257-265): it holds the address obtained from `allocate(1)`, or nothing
after `release()` has zeroed the pointer. -/
structure SafeAllocator where
  ptr : Option Nat

/-- The `safe_allocator` constructor: `ptr(a.allocate(1))`. -/
def SafeAllocator.make (s : AllocState) : SafeAllocator × AllocState :=
  let r := allocate s
  (⟨some r.1⟩, r.2)

/-- The `safe_allocator` destructor:
`if (ptr) { alloc.deallocate(ptr, 1); }`. -/
def SafeAllocator.dtor (g : SafeAllocator) (s : AllocState) : AllocState :=
  match g.ptr with
  | some _ => deallocate s
  | none => s

/-- `safe_allocator::release()`: zero the stored pointer and return it (a
raw, possibly-null pointer, hence an `Option`). -/
def SafeAllocator.release (g : SafeAllocator) : Option Nat × SafeAllocator :=
  (g.ptr, ⟨none⟩)

/-- `Kdtree_base::create_node` (spatial_kdtree_base.hpp, lines 286-292):
construct the guard (allocating one node), construct the key in place —
modelled by `keyCtor`, which either returns normally or throws `e` — then
release the guard and return the node. C++ unwinding runs the guard's
destructor when the key constructor throws; after a normal return the
destructor also runs, but the released guard holds a null pointer. -/
def create_node {E : Type} (s : AllocState) (keyCtor : Except E Unit) :
    Except E (Option Nat) × AllocState :=
  let made := SafeAllocator.make s
  match keyCtor with
  | Except.error e => (Except.error e, made.1.dtor made.2)
  | Except.ok _ =>
    let rel := made.1.release
    (Except.ok rel.1, rel.2.dtor made.2)

/-- Whether an `Except` computation completed without an exception. -/
def isOkE {E A : Type} : Except E A → Bool
  | Except.ok _ => true
  | Except.error _ => false

/-- C8: `create_node` performs exactly one allocation (the fresh-address
counter advances by exactly one); when the key constructor throws, the
exception propagates unchanged and the allocation has been released (the
live count is back to its initial value); on success the release is
suppressed, the live count grows by exactly one, and the freshly allocated
node is returned. -/
theorem create_node_atomic {E : Type} (s : AllocState)
    (keyCtor : Except E Unit) :
    ((create_node s keyCtor).2.live
        = if isOkE (create_node s keyCtor).1 then s.live + 1 else s.live)
  ∧ (create_node s keyCtor).1 = Except.map (fun _ => some s.nextAddr) keyCtor
  ∧ (create_node s keyCtor).2.nextAddr = s.nextAddr + 1 := by
  cases keyCtor with
  | error e =>
    refine ⟨?_, rfl, rfl⟩
    simp [create_node, SafeAllocator.make, SafeAllocator.dtor, allocate,
      deallocate, isOkE]
  | ok u =>
    refine ⟨?_, rfl, rfl⟩
    simp [create_node, SafeAllocator.make, SafeAllocator.dtor,
      SafeAllocator.release, allocate, isOkE]

/-! ## equal_begin / equal_end (spatial_equal.hpp, lines 372-420) -/

/-- An equal-iterator position: the current node address and the node's
dimension, as carried by `Bidirectional_iterator`. -/
structure EqIter where
  node : Nat
  dim : Nat
deriving DecidableEq

/-- The container surface consumed by `equal_begin` and `equal_end`: the
header address, the root address (`end().node->parent`), the dimension
(`rank()`), and the key comparator. -/
structure Container (K : Type) where
  headerAddr : Nat
  rootAddr : Nat
  dimension : Nat
  comp : Nat → K → K → Bool

/-- `container.empty()`: the root pointer refers back to the header. -/
def containerEmpty {K : Type} (c : Container K) : Bool :=
  c.rootAddr == c.headerAddr

/-- `equal_end` (spatial_equal.hpp, lines 372-380): an iterator at the
header node, with dimension `rank - 1`. -/
def equal_end {K : Type} (c : Container K) (_model : K) : EqIter :=
  ⟨c.headerAddr, c.dimension - 1⟩

/-- `equal_begin` (spatial_equal.hpp, lines 398-413): on an empty container
return `equal_end`; otherwise run `preorder_minimum` from the root at
dimension 0. The preorder-minimum routine lives in
`spatial_preorder.hpp`, which is not part of the sources under study, so it
is taken here as an arbitrary function parameter; the empty-container claim
holds for every choice of it. -/
def equal_begin {K : Type} (c : Container K) (model : K)
    (preorder_minimum : Nat → Nat → Nat → EqualKey K → EqIter) : EqIter :=
  if containerEmpty c then equal_end c model
  else preorder_minimum c.rootAddr 0 c.dimension ⟨c.comp, model⟩

/-- C9: on every empty container, `equal_begin` returns the same iterator
as `equal_end` — positioned at the container's header — and does so
independently of the preorder-minimum routine, i.e. without inspecting any
element node. -/
theorem equal_begin_empty {K : Type} (c : Container K) (model : K)
    (preorder_minimum : Nat → Nat → Nat → EqualKey K → EqIter)
    (h : containerEmpty c = true) :
    equal_begin c model preorder_minimum = equal_end c model
  ∧ (equal_begin c model preorder_minimum).node = c.headerAddr := by
  rw [equal_begin, if_pos h]
  exact ⟨rfl, rfl⟩

/-- A concrete empty rank-2 container over integer keys. -/
def emptyContainerW : Container Int := ⟨0, 0, 2, intLess⟩

/-- A preorder-minimum stub that would be detected if it were consulted. -/
def pminW : Nat → Nat → Nat → EqualKey Int → EqIter :=
  fun _ _ _ _ => ⟨99, 99⟩

/-- C9 (witness): the empty-container theorem at the concrete container. -/
theorem equal_begin_empty_witness :
    containerEmpty emptyContainerW = true
  ∧ equal_begin emptyContainerW 0 pminW = equal_end emptyContainerW 0 :=
  ⟨by decide, (equal_begin_empty emptyContainerW 0 pminW (by decide)).1⟩

/-! ## Facade constructors (pointmap.hpp, frozen_pointset.hpp)

Construction is observed through the collaborators the underlying tree base
stores afterwards. C++ default-constructed collaborators (`Compare()`,
`BalancingPolicy()`, `Alloc()`, `Dynamic_rank()`) appear as explicit
`...Def` parameters, since the engine treats them as opaque values. -/

/-- `Static_rank<n>`: a stateless compile-time rank. -/
structure Static_rank (n : Nat) where
deriving DecidableEq

/-- Modelled from the spec: `Dynamic_rank` (declared in the rank header,
which is not among the sources under study) is the dynamic flavour of the
rank abstraction and "stores a value" — the axis count supplied at
construction (spec section 4.1). It performs no validity check itself: the
rejection of rank 0 is done by the separate check the pointmap
constructor bodies invoke. -/
structure Dynamic_rank where
  dim : Nat
deriving DecidableEq

/-- The error kinds surfaced by construction. -/
inductive SpatialError where
  | invalidRank
deriving DecidableEq

/-- Modelled from the spec: `except::check_rank_argument` (declared in the
exception header, which is not among the sources under study) implements
"a runtime rank of 0 is rejected at construction with InvalidRank" (spec
sections 4.1 and 7); it is the call appearing in every dimension-taking
pointmap constructor body. -/
def check_rank_argument (dim : Nat) : Except SpatialError Unit :=
  if dim = 0 then Except.error SpatialError.invalidRank else Except.ok ()

/-- The collaborators a `Relaxed_kdtree` base stores after construction. -/
structure Relaxed_kdtree (R C P L : Type) where
  rank : R
  compare : C
  policy : P
  alloc : L
deriving DecidableEq

/-- The collaborators a strict `Kdtree` base stores after construction. -/
structure Kdtree (R C L : Type) where
  rank : R
  compare : C
  alloc : L
deriving DecidableEq

/-- `pointmap<Rank,...>::pointmap(const Compare&)` (pointmap.hpp, lines
40-42): the body reads `base_type(details::Static_rank<Rank>())` — the
supplied comparator is NOT forwarded, so the base default-constructs the
comparator, the policy and the allocator. -/
def pointmap_mk_compare {C P L : Type} (n : Nat) (cDef : C) (pDef : P)
    (aDef : L) (_compare : C) : Relaxed_kdtree (Static_rank n) C P L :=
  ⟨⟨⟩, cDef, pDef, aDef⟩

/-- `pointmap<Rank,...>::pointmap(const Compare&, const BalancingPolicy&)`
(pointmap.hpp, lines 44-46): forwards both collaborators. -/
def pointmap_mk_compare_policy {C P L : Type} (n : Nat) (aDef : L)
    (compare : C) (policy : P) : Relaxed_kdtree (Static_rank n) C P L :=
  ⟨⟨⟩, compare, policy, aDef⟩

/-- `pointmap<Rank,...>::pointmap(compare, policy, alloc)` (pointmap.hpp,
lines 48-51): forwards all three collaborators. -/
def pointmap_mk_compare_policy_alloc {C P L : Type} (n : Nat) (compare : C)
    (policy : P) (alloc : L) : Relaxed_kdtree (Static_rank n) C P L :=
  ⟨⟨⟩, compare, policy, alloc⟩

/-- `frozen_pointset<Rank,...>::frozen_pointset(const Compare&)`
(frozen_pointset.hpp, lines 58-60): the body reads
`base_type(details::Static_rank<Rank>())` — the supplied comparator is NOT
forwarded. -/
def frozen_pointset_mk_compare {C L : Type} (n : Nat) (cDef : C) (aDef : L)
    (_compare : C) : Kdtree (Static_rank n) C L :=
  ⟨⟨⟩, cDef, aDef⟩

/-- `frozen_pointset<Rank,...>::frozen_pointset(const Compare&, const
Alloc&)` (frozen_pointset.hpp, lines 62-64): forwards both. -/
def frozen_pointset_mk_compare_alloc {C L : Type} (n : Nat) (compare : C)
    (alloc : L) : Kdtree (Static_rank n) C L :=
  ⟨⟨⟩, compare, alloc⟩

/-- C3 (code evaluated at the failing input): constructing a static-rank
`pointmap` or `frozen_pointset` through the comparator-only constructor
with comparator `1` (default `0`) yields a container whose stored
comparator is the default `0`, not the supplied `1` — the comparator is
dropped — while the sibling constructors taking more collaborators do
forward the comparator. -/
theorem facade_compare_not_forwarded :
    (pointmap_mk_compare 2 (0 : Nat) (0 : Nat) (0 : Nat) 1).compare = 0
  ∧ ¬ ((pointmap_mk_compare 2 (0 : Nat) (0 : Nat) (0 : Nat) 1).compare = 1)
  ∧ (frozen_pointset_mk_compare 2 (0 : Nat) (0 : Nat) 1).compare = 0
  ∧ ¬ ((frozen_pointset_mk_compare 2 (0 : Nat) (0 : Nat) 1).compare = 1)
  ∧ (pointmap_mk_compare_policy 2 (0 : Nat) (1 : Nat) (0 : Nat)).compare = 1
  ∧ (frozen_pointset_mk_compare_alloc 2 (1 : Nat) (0 : Nat)).compare = 1 :=
  ⟨rfl, by decide, rfl, by decide, rfl, rfl⟩

/-! ### Dynamic-rank constructors

Each dimension-taking pointmap constructor builds its base with
`Dynamic_rank(dim)` and then runs `except::check_rank_argument(dim)` in the
constructor body; an exception there destroys the partially constructed
object and propagates, modelled by returning the error. The
`frozen_pointset<0,...>` constructors contain no such call. -/

/-- `pointmap<0,...>::pointmap(dimension_type)` (pointmap.hpp, lines
97-99). -/
def pointmap0_mk_dim {C P L : Type} (cDef : C) (pDef : P) (aDef : L)
    (dim : Nat) : Except SpatialError (Relaxed_kdtree Dynamic_rank C P L) :=
  let base : Relaxed_kdtree Dynamic_rank C P L := ⟨⟨dim⟩, cDef, pDef, aDef⟩
  match check_rank_argument dim with
  | Except.error e => Except.error e
  | Except.ok _ => Except.ok base

/-- `pointmap<0,...>::pointmap(dimension_type, const Compare&)`
(pointmap.hpp, lines 101-103). -/
def pointmap0_mk_dim_compare {C P L : Type} (pDef : P) (aDef : L)
    (dim : Nat) (compare : C) :
    Except SpatialError (Relaxed_kdtree Dynamic_rank C P L) :=
  let base : Relaxed_kdtree Dynamic_rank C P L := ⟨⟨dim⟩, compare, pDef, aDef⟩
  match check_rank_argument dim with
  | Except.error e => Except.error e
  | Except.ok _ => Except.ok base

/-- `pointmap<0,...>::pointmap(dim, compare, policy)` (pointmap.hpp, lines
105-108). -/
def pointmap0_mk_dim_compare_policy {C P L : Type} (aDef : L) (dim : Nat)
    (compare : C) (policy : P) :
    Except SpatialError (Relaxed_kdtree Dynamic_rank C P L) :=
  let base : Relaxed_kdtree Dynamic_rank C P L := ⟨⟨dim⟩, compare, policy, aDef⟩
  match check_rank_argument dim with
  | Except.error e => Except.error e
  | Except.ok _ => Except.ok base

/-- `pointmap<0,...>::pointmap(dim, compare, policy, alloc)` (pointmap.hpp,
lines 110-113). -/
def pointmap0_mk_dim_compare_policy_alloc {C P L : Type} (dim : Nat)
    (compare : C) (policy : P) (alloc : L) :
    Except SpatialError (Relaxed_kdtree Dynamic_rank C P L) :=
  let base : Relaxed_kdtree Dynamic_rank C P L := ⟨⟨dim⟩, compare, policy, alloc⟩
  match check_rank_argument dim with
  | Except.error e => Except.error e
  | Except.ok _ => Except.ok base

/-- `pointmap<0,...>::pointmap()` (pointmap.hpp, line 95): the base is
default-constructed, including a default `Dynamic_rank()`. -/
def pointmap0_mk_default {C P L : Type} (rDef : Dynamic_rank) (cDef : C)
    (pDef : P) (aDef : L) :
    Except SpatialError (Relaxed_kdtree Dynamic_rank C P L) :=
  Except.ok ⟨rDef, cDef, pDef, aDef⟩

/-- `pointmap<0,...>::pointmap(const Compare&)` (pointmap.hpp, lines
115-117): `base_type(details::Dynamic_rank(), compare)` — here the
comparator IS forwarded, and no rank check is performed. -/
def pointmap0_mk_compare {C P L : Type} (rDef : Dynamic_rank) (pDef : P)
    (aDef : L) (compare : C) :
    Except SpatialError (Relaxed_kdtree Dynamic_rank C P L) :=
  Except.ok ⟨rDef, compare, pDef, aDef⟩

/-- `pointmap<0,...>::pointmap(const Compare&, const BalancingPolicy&)`
(pointmap.hpp, lines 119-121). -/
def pointmap0_mk_compare_policy {C P L : Type} (rDef : Dynamic_rank)
    (aDef : L) (compare : C) (policy : P) :
    Except SpatialError (Relaxed_kdtree Dynamic_rank C P L) :=
  Except.ok ⟨rDef, compare, policy, aDef⟩

/-- `pointmap<0,...>::pointmap(compare, policy, alloc)` (pointmap.hpp,
lines 123-126). -/
def pointmap0_mk_compare_policy_alloc {C P L : Type} (rDef : Dynamic_rank)
    (compare : C) (policy : P) (alloc : L) :
    Except SpatialError (Relaxed_kdtree Dynamic_rank C P L) :=
  Except.ok ⟨rDef, compare, policy, alloc⟩

/-- `pointmap<0,...>::pointmap(const pointmap&)` (pointmap.hpp, lines
128-130): delegates to the base copy constructor. -/
def pointmap0_mk_copy {C P L : Type}
    (other : Relaxed_kdtree Dynamic_rank C P L) :
    Except SpatialError (Relaxed_kdtree Dynamic_rank C P L) :=
  Except.ok other

/-- `runtime_pointmap::runtime_pointmap()` (pointmap.hpp, line 157). -/
def runtime_pointmap_mk_default {C P L : Type} (rDef : Dynamic_rank)
    (cDef : C) (pDef : P) (aDef : L) :
    Except SpatialError (Relaxed_kdtree Dynamic_rank C P L) :=
  Except.ok ⟨rDef, cDef, pDef, aDef⟩

/-- `runtime_pointmap::runtime_pointmap(dimension_type)` (pointmap.hpp,
lines 159-161). -/
def runtime_pointmap_mk_dim {C P L : Type} (cDef : C) (pDef : P) (aDef : L)
    (dim : Nat) : Except SpatialError (Relaxed_kdtree Dynamic_rank C P L) :=
  let base : Relaxed_kdtree Dynamic_rank C P L := ⟨⟨dim⟩, cDef, pDef, aDef⟩
  match check_rank_argument dim with
  | Except.error e => Except.error e
  | Except.ok _ => Except.ok base

/-- `runtime_pointmap(dimension_type, const Compare&)` (pointmap.hpp,
lines 163-165). -/
def runtime_pointmap_mk_dim_compare {C P L : Type} (pDef : P) (aDef : L)
    (dim : Nat) (compare : C) :
    Except SpatialError (Relaxed_kdtree Dynamic_rank C P L) :=
  let base : Relaxed_kdtree Dynamic_rank C P L := ⟨⟨dim⟩, compare, pDef, aDef⟩
  match check_rank_argument dim with
  | Except.error e => Except.error e
  | Except.ok _ => Except.ok base

/-- `runtime_pointmap(dim, compare, policy)` (pointmap.hpp, lines
167-170). -/
def runtime_pointmap_mk_dim_compare_policy {C P L : Type} (aDef : L)
    (dim : Nat) (compare : C) (policy : P) :
    Except SpatialError (Relaxed_kdtree Dynamic_rank C P L) :=
  let base : Relaxed_kdtree Dynamic_rank C P L := ⟨⟨dim⟩, compare, policy, aDef⟩
  match check_rank_argument dim with
  | Except.error e => Except.error e
  | Except.ok _ => Except.ok base

/-- `runtime_pointmap(dim, compare, policy, alloc)` (pointmap.hpp, lines
172-175). -/
def runtime_pointmap_mk_dim_compare_policy_alloc {C P L : Type} (dim : Nat)
    (compare : C) (policy : P) (alloc : L) :
    Except SpatialError (Relaxed_kdtree Dynamic_rank C P L) :=
  let base : Relaxed_kdtree Dynamic_rank C P L := ⟨⟨dim⟩, compare, policy, alloc⟩
  match check_rank_argument dim with
  | Except.error e => Except.error e
  | Except.ok _ => Except.ok base

/-- `runtime_pointmap(const Compare&)` (pointmap.hpp, lines 177-179). -/
def runtime_pointmap_mk_compare {C P L : Type} (rDef : Dynamic_rank)
    (pDef : P) (aDef : L) (compare : C) :
    Except SpatialError (Relaxed_kdtree Dynamic_rank C P L) :=
  Except.ok ⟨rDef, compare, pDef, aDef⟩

/-- `runtime_pointmap(const Compare&, const BalancingPolicy&)`
(pointmap.hpp, lines 181-183). -/
def runtime_pointmap_mk_compare_policy {C P L : Type} (rDef : Dynamic_rank)
    (aDef : L) (compare : C) (policy : P) :
    Except SpatialError (Relaxed_kdtree Dynamic_rank C P L) :=
  Except.ok ⟨rDef, compare, policy, aDef⟩

/-- `runtime_pointmap(compare, policy, alloc)` (pointmap.hpp, lines
185-188). -/
def runtime_pointmap_mk_compare_policy_alloc {C P L : Type}
    (rDef : Dynamic_rank) (compare : C) (policy : P) (alloc : L) :
    Except SpatialError (Relaxed_kdtree Dynamic_rank C P L) :=
  Except.ok ⟨rDef, compare, policy, alloc⟩

/-- `runtime_pointmap(const runtime_pointmap&)` (pointmap.hpp, lines
190-192). -/
def runtime_pointmap_mk_copy {C P L : Type}
    (other : Relaxed_kdtree Dynamic_rank C P L) :
    Except SpatialError (Relaxed_kdtree Dynamic_rank C P L) :=
  Except.ok other

/-- `frozen_pointset<0,...>::frozen_pointset(dimension_type)`
(frozen_pointset.hpp, lines 94-96): no `check_rank_argument` call. -/
def frozen_pointset0_mk_dim {C L : Type} (cDef : C) (aDef : L) (dim : Nat) :
    Except SpatialError (Kdtree Dynamic_rank C L) :=
  Except.ok ⟨⟨dim⟩, cDef, aDef⟩

/-- `frozen_pointset<0,...>::frozen_pointset(dimension_type, const
Compare&)` (frozen_pointset.hpp, lines 98-100): no `check_rank_argument`
call. -/
def frozen_pointset0_mk_dim_compare {C L : Type} (aDef : L) (dim : Nat)
    (compare : C) : Except SpatialError (Kdtree Dynamic_rank C L) :=
  Except.ok ⟨⟨dim⟩, compare, aDef⟩

/-- `frozen_pointset<0,...>::frozen_pointset(dim, compare, alloc)`
(frozen_pointset.hpp, lines 106-109): no `check_rank_argument` call. -/
def frozen_pointset0_mk_dim_compare_alloc {C L : Type} (dim : Nat)
    (compare : C) (alloc : L) :
    Except SpatialError (Kdtree Dynamic_rank C L) :=
  Except.ok ⟨⟨dim⟩, compare, alloc⟩

/-- C4 (code evaluated at the failing input): every dimension-taking
constructor of `frozen_pointset<0,...>` accepts a runtime rank of 0 and
constructs a container of rank 0, whereas the corresponding
`pointmap<0,...>` constructors reject rank 0 with `InvalidRank`. -/
theorem frozen_pointset_accepts_rank_zero :
    frozen_pointset0_mk_dim (0 : Nat) (0 : Nat) 0 = Except.ok ⟨⟨0⟩, 0, 0⟩
  ∧ frozen_pointset0_mk_dim_compare (0 : Nat) 0 (0 : Nat)
      = Except.ok ⟨⟨0⟩, 0, 0⟩
  ∧ frozen_pointset0_mk_dim_compare_alloc 0 (0 : Nat) (0 : Nat)
      = Except.ok ⟨⟨0⟩, 0, 0⟩
  ∧ pointmap0_mk_dim (0 : Nat) (0 : Nat) (0 : Nat) 0
      = Except.error SpatialError.invalidRank
  ∧ pointmap0_mk_dim_compare ((0 : Nat)) ((0 : Nat)) 0 (0 : Nat)
      = Except.error SpatialError.invalidRank
  ∧ pointmap0_mk_dim_compare_policy ((0 : Nat)) 0 (0 : Nat) (0 : Nat)
      = Except.error SpatialError.invalidRank
  ∧ pointmap0_mk_dim_compare_policy_alloc 0 (0 : Nat) (0 : Nat) (0 : Nat)
      = Except.error SpatialError.invalidRank :=
  ⟨rfl, rfl, rfl, rfl, rfl, rfl, rfl⟩

/-- C10: `pointmap<0, Key, Mapped, ...>` and `runtime_pointmap<Key, Mapped,
...>` construct behaviorally identical containers: every corresponding
constructor — default, the four dimension-taking ones (with the same rank
check), the three collaborator-only ones, and copy — produces the same
base state from the same arguments. -/
theorem pointmap0_runtime_pointmap_equiv {C P L : Type}
    (rDef : Dynamic_rank) (cDef : C) (pDef : P) (aDef : L) (dim : Nat)
    (compare : C) (policy : P) (alloc : L)
    (other : Relaxed_kdtree Dynamic_rank C P L) :
    pointmap0_mk_default rDef cDef pDef aDef
      = runtime_pointmap_mk_default rDef cDef pDef aDef
  ∧ pointmap0_mk_dim cDef pDef aDef dim
      = runtime_pointmap_mk_dim cDef pDef aDef dim
  ∧ pointmap0_mk_dim_compare pDef aDef dim compare
      = runtime_pointmap_mk_dim_compare pDef aDef dim compare
  ∧ pointmap0_mk_dim_compare_policy aDef dim compare policy
      = runtime_pointmap_mk_dim_compare_policy aDef dim compare policy
  ∧ pointmap0_mk_dim_compare_policy_alloc dim compare policy alloc
      = runtime_pointmap_mk_dim_compare_policy_alloc dim compare policy alloc
  ∧ pointmap0_mk_compare rDef pDef aDef compare
      = runtime_pointmap_mk_compare rDef pDef aDef compare
  ∧ pointmap0_mk_compare_policy rDef aDef compare policy
      = runtime_pointmap_mk_compare_policy rDef aDef compare policy
  ∧ pointmap0_mk_compare_policy_alloc rDef compare policy alloc
      = runtime_pointmap_mk_compare_policy_alloc rDef compare policy alloc
  ∧ pointmap0_mk_copy other = runtime_pointmap_mk_copy other :=
  ⟨rfl, rfl, rfl, rfl, rfl, rfl, rfl, rfl, rfl⟩

end Spatial
